import Mathlib

/-!
Shallow embedding of the rrrocket parsing-orchestration layer
(`src/lib.rs`): the `ReplayParser` facade, its mmap-or-read file
strategy, and the path/directory expansion functions.

The byte-level replay decoder (the boxcars crate) and the filesystem /
glob enumeration are external collaborators of this layer; they are
embedded as explicit parameters (`Decoder`, `FileSys`, `DiscFS`), so
every theorem quantifies over their behaviour unless a concrete model
is supplied.  Bytes are modelled as natural numbers: the facade never
inspects them, it only forwards them to the decoder.
-/

/-- Byte buffers (`&[u8]` in the source); the element values are never
inspected by this layer. -/
abbrev ByteSeq := List Nat

/-- boxcars `CrcCheck` policy values. -/
inductive CrcCheck where
  | Always
  | OnError
  | Never
  deriving DecidableEq, Repr

/-- boxcars `NetworkParse` policy values. -/
inductive NetworkParse where
  | Always
  | IgnoreErrors
  | Never
  deriving DecidableEq, Repr

/-- External decoder (boxcars): a pure function from bytes and the two
policies to a replay document or a parse error, together with the
crate's builder defaults (used only when a policy is never set). -/
structure Decoder (α ε : Type) where
  decode : ByteSeq → CrcCheck → NetworkParse → Except ε α
  crcDefault : CrcCheck
  netDefault : NetworkParse

/-- boxcars `ParserBuilder`: holds the data and the optionally-set
policies (`none` = the crate default applies at `parse`). -/
structure ParserBuilder (α ε : Type) where
  dec : Decoder α ε
  data : ByteSeq
  crc : Option CrcCheck
  net : Option NetworkParse

/-- `ParserBuilder::new(data)`: no policy set yet. -/
def ParserBuilder.new (d : Decoder α ε) (data : ByteSeq) : ParserBuilder α ε :=
  ⟨d, data, none, none⟩

/-- `ParserBuilder::with_crc_check`. -/
def ParserBuilder.with_crc_check (b : ParserBuilder α ε) (c : CrcCheck) : ParserBuilder α ε :=
  { b with crc := some c }

/-- `ParserBuilder::with_network_parse`. -/
def ParserBuilder.with_network_parse (b : ParserBuilder α ε) (n : NetworkParse) :
    ParserBuilder α ε :=
  { b with net := some n }

/-- `ParserBuilder::parse`: invoke the decoder with the set policies,
falling back to the crate defaults for an unset one. -/
def ParserBuilder.parse (b : ParserBuilder α ε) : Except ε α :=
  b.dec.decode b.data (b.crc.getD b.dec.crcDefault) (b.net.getD b.dec.netDefault)

/-- `ReplayParser` (lib.rs lines 9-13): the facade's two configuration
booleans. -/
structure ReplayParser where
  crc_check : Bool
  network_parse : Bool
  deriving DecidableEq, Repr

/-- `#[derive(Default)]`: both booleans false. -/
def ReplayParser.default : ReplayParser := ⟨false, false⟩

/-- `ReplayParser::new` (lib.rs lines 24-26). -/
def ReplayParser.new : ReplayParser := ReplayParser.default

/-- `ReplayParser::with_crc_check` (lib.rs lines 29-32). -/
def ReplayParser.with_crc_check (p : ReplayParser) (b : Bool) : ReplayParser :=
  { p with crc_check := b }

/-- `ReplayParser::with_network_parse` (lib.rs lines 35-38). -/
def ReplayParser.with_network_parse (p : ReplayParser) (b : Bool) : ReplayParser :=
  { p with network_parse := b }

/-- `ReplayParser::set_crc_check` (lib.rs lines 51-53); the `&mut self`
mutation is embedded as returning the updated value. -/
def ReplayParser.set_crc_check (p : ReplayParser) (b : Bool) : ReplayParser :=
  { p with crc_check := b }

/-- `ReplayParser::set_network_parse` (lib.rs lines 56-58). -/
def ReplayParser.set_network_parse (p : ReplayParser) (b : Bool) : ReplayParser :=
  { p with network_parse := b }

/-- `ReplayParser::parse_bytes` (lib.rs lines 61-74): build a boxcars
parser, set both policies from the two booleans, and parse. -/
def ReplayParser.parse_bytes (p : ReplayParser) (d : Decoder α ε) (data : ByteSeq) :
    Except ε α :=
  (((ParserBuilder.new d data).with_crc_check
      (if p.crc_check then CrcCheck.Always else CrcCheck.OnError)).with_network_parse
      (if p.network_parse then NetworkParse.Always else NetworkParse.Never)).parse

/-- `anyhow::Error` as it arises in `parse_file`: either an I/O error
(open / fallback read) or a decode error lifted by the `?` operator. -/
inductive AnyErr (ε : Type) where
  | fsErr (msg : String)
  | decodeErr (e : ε)
  deriving DecidableEq, Repr

/-- The `?` on `Result<Replay, ParseError>` inside `parse_file`:
converts a decode error into the `anyhow` error type. -/
def liftDecode (r : Except ε α) : Except (AnyErr ε) α :=
  match r with
  | .ok a => .ok a
  | .error e => .error (AnyErr.decodeErr e)

/-- Filesystem as seen by `parse_file`: the outcome of `File::open`,
of the mmap attempt on the opened file, and of the fallback
`fs::read`, keyed by path. -/
structure FileSys where
  openFile : String → Except String Unit
  mmap : String → Except String ByteSeq
  readFile : String → Except String ByteSeq

/-- `ReplayParser::parse_file` (lib.rs lines 77-91): open the file, try
to memory-map it; on mapping success parse the mapped bytes, otherwise
fall back to reading the whole file and parse that. -/
def ReplayParser.parse_file (p : ReplayParser) (d : Decoder α ε) (fsys : FileSys)
    (path : String) : Except (AnyErr ε) α :=
  match fsys.openFile path with
  | .error e => .error (AnyErr.fsErr e)
  | .ok _ =>
    match fsys.mmap path with
    | .ok mapped => liftDecode (p.parse_bytes d mapped)
    | .error _ =>
      match fsys.readFile path with
      | .error e => .error (AnyErr.fsErr e)
      | .ok data => liftDecode (p.parse_bytes d data)

/-- `ParsedReplay` (lib.rs lines 17-20). -/
structure ParsedReplay (α : Type) where
  path : String
  replay : α

/-- `ReplayParser::parse_path` (lib.rs lines 94-97). -/
def ReplayParser.parse_path (p : ReplayParser) (d : Decoder α ε) (fsys : FileSys)
    (path : String) : Except (AnyErr ε) (ParsedReplay α) :=
  match p.parse_file d fsys path with
  | .ok r => .ok ⟨path, r⟩
  | .error e => .error e

/-- Filesystem as seen by the path expander: the `Path::is_file` test
and the outcome of `glob::glob` on a pattern string — either a
pattern-construction error, or the enumerated entries, each an `Ok`
path or a per-entry `GlobError`. -/
structure DiscFS where
  isFile : String → Bool
  glob : String → Except String (List (Except String String))

/-- The pattern built at lib.rs line 102: `format!("{}/**/*.replay", dir)`. -/
def dir_glob_fmt (dir : String) : String :=
  dir ++ "/**/*.replay"

/-- The per-entry handling inside `expand_directory`'s `filter_map`
(lib.rs lines 109-118): an `Ok` path is kept only when it is a regular
file, a per-entry error is kept as an error. -/
def glob_entry_step (isF : String → Bool) :
    Except String String → Option (Except String String)
  | .ok path => if isF path then some (.ok path) else none
  | .error err => some (.error err)

/-- `expand_directory` (lib.rs lines 101-122): build the glob pattern;
on pattern failure yield the single contextualised error, otherwise
filter the enumerated entries. -/
def expand_directory (fs : DiscFS) (dir : String) : List (Except String String) :=
  match fs.glob (dir_glob_fmt dir) with
  | .error e => [.error ("unable to form glob in " ++ dir ++ ": " ++ e)]
  | .ok entries => entries.filterMap (glob_entry_step fs.isFile)

/-- The per-argument closure of `expand_paths` (lib.rs lines 126-133):
a regular file is yielded as the single `Ok` item, anything else is
expanded as a directory. -/
def expandOne (fs : DiscFS) (arg : String) : List (Except String String) :=
  if fs.isFile arg then [.ok arg] else expand_directory fs arg

/-- `expand_paths` (lib.rs lines 125-134): `flat_map` of the
per-argument expansion over the arguments in order. -/
def expand_paths (fs : DiscFS) (files : List String) : List (Except String String) :=
  files.flatMap (expandOne fs)

/-! ### Concrete fixtures used by the witness theorems -/

/-- A decoder that records nothing and always succeeds with `0`;
used to instantiate witnesses. -/
def constDecoder : Decoder Nat String :=
  ⟨fun _ _ _ => .ok 0, CrcCheck.OnError, NetworkParse.IgnoreErrors⟩

/-- A decoder that succeeds exactly on the buffer `[7, 7]` and fails on
anything else. -/
def pickyDecoder : Decoder Nat String :=
  ⟨fun data _ _ => if data = [7, 7] then .ok 42 else .error "bad bytes", CrcCheck.OnError,
    NetworkParse.IgnoreErrors⟩

/-- A filesystem where opening succeeds, the mmap attempt always fails,
and the fallback read returns `[7, 7]`. -/
def mmapFailFS : FileSys :=
  ⟨fun _ => .ok (), fun _ => .error "mmap unavailable", fun _ => .ok [7, 7]⟩

/-- An empty filesystem: nothing is a file and every glob enumerates no
entries — exactly what the glob crate produces when the literal prefix
of the pattern (the directory argument) does not exist. -/
def ghostFS : DiscFS :=
  ⟨fun _ => false, fun _ => .ok []⟩

/-- A filesystem on which every glob pattern fails to construct. -/
def badPatternFS : DiscFS :=
  ⟨fun _ => false, fun _ => .error "bad pattern"⟩

/-- A filesystem with one directory `d` whose enumeration yields two
regular files, one per-entry error in between, and one matching
subdirectory; `lone.txt` is a regular file outside `d`. -/
def demoFS : DiscFS :=
  ⟨fun p => p == "d/x.replay" || p == "d/y.replay" || p == "lone.txt",
    fun _ => .ok [.ok "d/x.replay", .error "denied", .ok "d/sub", .ok "d/y.replay"]⟩

/-- An enumeration of the directory `d` that stops after one file. -/
def smallDirGlob : String → Except String (List (Except String String)) :=
  fun _ => .ok [Except.ok "d/x.replay"]

/-- An enumeration of the directory `d` with the same first entry
followed by ten thousand further matching files. -/
def hugeDirGlob : String → Except String (List (Except String String)) :=
  fun _ => .ok (Except.ok "d/x.replay" :: List.replicate 10000 (Except.ok "d/more.replay"))

/-! ### Helper lemmas shared across the development -/

/-- Unfolding `expand_paths` on a cons. -/
lemma expand_paths_cons (fs : DiscFS) (a : String) (l : List String) :
    expand_paths fs (a :: l) = expandOne fs a ++ expand_paths fs l := by
  simp [expand_paths]

/-- `expand_paths` is a homomorphism for list append: the output is the
in-order concatenation of the per-argument expansions. -/
lemma expand_paths_append (fs : DiscFS) (l m : List String) :
    expand_paths fs (l ++ m) = expand_paths fs l ++ expand_paths fs m := by
  simp [expand_paths]

/-- A singleton argument list expands to that argument's expansion. -/
lemma expand_paths_singleton (fs : DiscFS) (a : String) :
    expand_paths fs [a] = expandOne fs a := by
  simp [expand_paths]

/-- The head of a concatenation is the head of a nonempty left part. -/
lemma head_append_of_head (l m : List α) (x : α) (h : l.head? = some x) :
    (l ++ m).head? = some x := by
  cases l with
  | nil => simp at h
  | cons y ys => simpa using h

/-! ### Claim theorems -/

/-- Claim C1: for every byte sequence and configuration, `parse_bytes`
maps `crc_check = true` to `CrcCheck.Always` and `false` to
`CrcCheck.OnError`, maps `network_parse = true` to
`NetworkParse.Always` and `false` to `NetworkParse.Never`, and
delegates to the decoder with exactly those policies; in particular the
default configuration hands the decoder the `OnError`/`Never` pair,
never `Always`/`Always`. -/
theorem parse_bytes_policy_map (α ε : Type) (d : Decoder α ε) (p : ReplayParser)
    (data : ByteSeq) :
    p.parse_bytes d data =
      d.decode data (if p.crc_check then CrcCheck.Always else CrcCheck.OnError)
        (if p.network_parse then NetworkParse.Always else NetworkParse.Never) ∧
    ReplayParser.default.parse_bytes d data =
      d.decode data CrcCheck.OnError NetworkParse.Never := by
  constructor <;> rfl

/-- Claim C4: `parse_bytes` is a pure function of the configuration and
the bytes — two calls with identical inputs return identical results
(both successes equal, or both the very same error). -/
theorem parse_bytes_deterministic (α ε : Type) (d : Decoder α ε) (p q : ReplayParser)
    (b c : ByteSeq) (hpq : p = q) (hbc : b = c) :
    p.parse_bytes d b = q.parse_bytes d c := by
  subst hpq
  subst hbc
  rfl

/-- Witness for C4 at a concrete configuration and buffer. -/
theorem parse_bytes_deterministic_witness :
    ReplayParser.default.parse_bytes constDecoder [1, 2, 3] =
      ReplayParser.default.parse_bytes constDecoder [1, 2, 3] :=
  parse_bytes_deterministic Nat String constDecoder ReplayParser.default ReplayParser.default
    [1, 2, 3] [1, 2, 3] rfl rfl

/-- Claim C9: the configuration setters and accessors obey the
get-after-set laws and are orthogonal — setting one boolean (by the
builder-style or the mutating setter) makes its accessor return the new
value and leaves the other accessor unchanged; being total Lean
functions they perform no I/O and cannot fail. -/
theorem config_get_set_laws (p : ReplayParser) (b : Bool) :
    (p.with_crc_check b).crc_check = b ∧
    (p.with_crc_check b).network_parse = p.network_parse ∧
    (p.with_network_parse b).network_parse = b ∧
    (p.with_network_parse b).crc_check = p.crc_check ∧
    (p.set_crc_check b).crc_check = b ∧
    (p.set_crc_check b).network_parse = p.network_parse ∧
    (p.set_network_parse b).network_parse = b ∧
    (p.set_network_parse b).crc_check = p.crc_check := by
  refine ⟨rfl, rfl, rfl, rfl, rfl, rfl, rfl, rfl⟩

/-- Claim C3: when the file opens and the on-disk content is `B`
(every successful mmap returns `B`, the fallback read returns `B`),
`parse_file` returns exactly the `parse_bytes B` outcome under any
configuration: the mapped and the buffered strategy are
observationally identical, and a failed mapping attempt alone does not
fail the parse. -/
theorem parse_file_refines_parse_bytes (α ε : Type) (d : Decoder α ε) (p : ReplayParser)
    (fsys : FileSys) (path : String) (B : ByteSeq)
    (hopen : fsys.openFile path = .ok ())
    (hmap : ∀ b, fsys.mmap path = .ok b → b = B)
    (hread : fsys.readFile path = .ok B) :
    p.parse_file d fsys path = liftDecode (p.parse_bytes d B) := by
  unfold ReplayParser.parse_file
  rw [hopen]
  cases hm : fsys.mmap path with
  | ok mapped =>
    have hb := hmap mapped hm
    rw [hb]
  | error e =>
    rw [hread]

/-- Witness for C3: a filesystem whose mmap attempt fails while the
fallback read returns the content `[7, 7]`; the parse still succeeds
and equals `parse_bytes [7, 7]`. -/
theorem parse_file_refines_parse_bytes_witness :
    ReplayParser.default.parse_file pickyDecoder mmapFailFS "a.replay" =
      liftDecode (ReplayParser.default.parse_bytes pickyDecoder [7, 7]) :=
  parse_file_refines_parse_bytes Nat String pickyDecoder ReplayParser.default mmapFailFS
    "a.replay" [7, 7] rfl (by intro b h; cases h) rfl

/-- Unfolding `expand_directory` when the glob enumeration succeeds. -/
lemma expand_directory_glob_ok (fs : DiscFS) (dir : String)
    (entries : List (Except String String))
    (h : fs.glob (dir_glob_fmt dir) = .ok entries) :
    expand_directory fs dir = entries.filterMap (glob_entry_step fs.isFile) := by
  unfold expand_directory
  rw [h]

/-- Unfolding `expand_directory` when the glob pattern fails. -/
lemma expand_directory_glob_error (fs : DiscFS) (dir e : String)
    (h : fs.glob (dir_glob_fmt dir) = .error e) :
    expand_directory fs dir = [.error ("unable to form glob in " ++ dir ++ ": " ++ e)] := by
  unfold expand_directory
  rw [h]

/-- Any `Ok` path surviving the per-entry filter is a regular file. -/
lemma isFile_of_ok_mem_filterMap (isF : String → Bool) (l : List (Except String String))
    (p : String) (h : Except.ok p ∈ l.filterMap (glob_entry_step isF)) :
    isF p = true := by
  rcases List.mem_filterMap.mp h with ⟨entry, _, hstep⟩
  cases entry with
  | ok q =>
    by_cases hq : isF q
    · simp only [glob_entry_step, hq, if_pos] at hstep
      have hqp : q = p := by
        have := Option.some.inj hstep
        exact Except.ok.inj this
      rw [← hqp]
      exact hq
    · simp [glob_entry_step, hq] at hstep
  | error e =>
    simp only [glob_entry_step] at hstep
    have := Option.some.inj hstep
    cases this

/-- Claim C5: when the glob pattern itself cannot be constructed,
`expand_directory` yields exactly one error item (and nothing after it)
for that root; a per-entry enumeration error is yielded in place as an
error item and the remaining entries are still processed. -/
theorem expand_directory_error_modes (fs : DiscFS) (dir e err : String)
    (pre post : List (Except String String)) :
    (fs.glob (dir_glob_fmt dir) = .error e →
      expand_directory fs dir = [.error ("unable to form glob in " ++ dir ++ ": " ++ e)]) ∧
    (fs.glob (dir_glob_fmt dir) = .ok (pre ++ .error err :: post) →
      expand_directory fs dir =
        pre.filterMap (glob_entry_step fs.isFile) ++
          .error err :: post.filterMap (glob_entry_step fs.isFile)) := by
  constructor
  · intro h
    exact expand_directory_glob_error fs dir e h
  · intro h
    rw [expand_directory_glob_ok fs dir _ h, List.filterMap_append, List.filterMap_cons]
    rfl

/-- Witness for C5: the pattern-failure filesystem yields the single
contextualised error for root `d`; on `demoFS` the per-entry error
`denied` is yielded in place between the two surviving files. -/
theorem expand_directory_error_modes_witness :
    expand_directory badPatternFS "d" =
      [.error ("unable to form glob in " ++ "d" ++ ": " ++ "bad pattern")] ∧
    expand_directory demoFS "d" =
      [Except.ok "d/x.replay"].filterMap (glob_entry_step demoFS.isFile) ++
        .error "denied" ::
          [Except.ok "d/sub", Except.ok "d/y.replay"].filterMap (glob_entry_step demoFS.isFile) := by
  constructor
  · exact (expand_directory_error_modes badPatternFS "d" "bad pattern" "x" [] []).1 rfl
  · exact (expand_directory_error_modes demoFS "d" "e" "denied" [Except.ok "d/x.replay"]
      [Except.ok "d/sub", Except.ok "d/y.replay"]).2 rfl

/-- Claim C6: a glob match that is not a regular file is silently
dropped by `expand_directory` — the expansion equals that of the
remaining entries, and no `Ok` item for the dropped path appears. -/
theorem expand_directory_drops_non_files (fs : DiscFS) (dir p : String)
    (pre post : List (Except String String))
    (hglob : fs.glob (dir_glob_fmt dir) = .ok (pre ++ .ok p :: post))
    (hnf : fs.isFile p = false) :
    expand_directory fs dir =
      pre.filterMap (glob_entry_step fs.isFile) ++
        post.filterMap (glob_entry_step fs.isFile) ∧
    Except.ok p ∉ expand_directory fs dir := by
  have heq : expand_directory fs dir =
      pre.filterMap (glob_entry_step fs.isFile) ++
        post.filterMap (glob_entry_step fs.isFile) := by
    rw [expand_directory_glob_ok fs dir _ hglob, List.filterMap_append, List.filterMap_cons]
    simp [glob_entry_step, hnf]
  refine ⟨heq, ?_⟩
  rw [heq]
  intro hmem
  rcases List.mem_append.mp hmem with h | h <;>
    exact absurd (isFile_of_ok_mem_filterMap fs.isFile _ p h) (by simp [hnf])

/-- Witness for C6: the matching subdirectory `d/sub` is neither
yielded nor reported by the expansion of `d` on `demoFS`. -/
theorem expand_directory_drops_non_files_witness :
    expand_directory demoFS "d" =
      [Except.ok "d/x.replay", Except.error "denied"].filterMap (glob_entry_step demoFS.isFile) ++
        [Except.ok "d/y.replay"].filterMap (glob_entry_step demoFS.isFile) ∧
    Except.ok "d/sub" ∉ expand_directory demoFS "d" :=
  expand_directory_drops_non_files demoFS "d" "d/sub"
    [Except.ok "d/x.replay", Except.error "denied"] [Except.ok "d/y.replay"] rfl (by decide)

/-- Claim C7: `expand_paths` processes the arguments in order — the
output is the in-order concatenation of per-argument expansions; an
existing regular file is yielded immediately, unchanged, as the single
success item, and any other argument is expanded as a directory root
through the recursive pattern `dir ++ "/**/*.replay"`. -/
theorem expand_paths_order_concat (fs : DiscFS) (a : String) (l m : List String) :
    (expand_paths fs (l ++ m) = expand_paths fs l ++ expand_paths fs m) ∧
    (fs.isFile a = true → expand_paths fs [a] = [Except.ok a]) ∧
    (fs.isFile a = false →
      expand_paths fs [a] = expand_directory fs a ∧ dir_glob_fmt a = a ++ "/**/*.replay") := by
  refine ⟨expand_paths_append fs l m, ?_, ?_⟩
  · intro h
    rw [expand_paths_singleton]
    simp [expandOne, h]
  · intro h
    refine ⟨?_, rfl⟩
    rw [expand_paths_singleton]
    simp [expandOne, h]

/-- Witness for C7: on `demoFS`, the file argument `lone.txt` expands
to itself and the non-file argument `d` expands as a directory. -/
theorem expand_paths_order_concat_witness :
    expand_paths demoFS ["lone.txt"] = [Except.ok "lone.txt"] ∧
    expand_paths demoFS ["d"] = expand_directory demoFS "d" := by
  constructor
  · exact (expand_paths_order_concat demoFS "lone.txt" [] []).2.1 (by decide)
  · exact ((expand_paths_order_concat demoFS "d" [] []).2.2 (by decide)).1

/-- Claim C10: an argument that is an existing regular file is yielded
as a success item whatever its extension — the `.replay` filter lives
only in the directory glob, so a file argument is yielded verbatim in
front of the expansion of the remaining arguments. -/
theorem expand_paths_file_any_extension (fs : DiscFS) (a : String) (rest : List String)
    (hf : fs.isFile a = true) :
    expand_paths fs (a :: rest) = Except.ok a :: expand_paths fs rest := by
  rw [expand_paths_cons]
  simp [expandOne, hf]

/-- Witness for C10: `lone.txt` does not carry the replay extension and
is still yielded unchanged ahead of the remaining arguments. -/
theorem expand_paths_file_any_extension_witness :
    expand_paths demoFS ["lone.txt", "d"] =
      Except.ok "lone.txt" :: expand_paths demoFS ["d"] :=
  expand_paths_file_any_extension demoFS "lone.txt" ["d"] (by decide)

/-- Claim C8 (laziness, stated extensionally): the first item of
`expand_paths` is already determined by the first argument's expansion,
for every possible list of later arguments; and the first item of a
directory expansion is already determined by a prefix of the glob
enumeration containing a kept entry — two enumerations sharing that
prefix give the same first item whatever their (arbitrarily long)
tails, so producing the first item never requires the full walk. -/
theorem expand_paths_lazy_head (isF : String → Bool)
    (g g' : String → Except String (List (Except String String)))
    (fs : DiscFS) (a dir : String) (rest : List String)
    (pre t t' : List (Except String String)) (x : Except String String) :
    ((expand_paths fs [a]).head? = some x →
      (expand_paths fs (a :: rest)).head? = some x) ∧
    (g (dir_glob_fmt dir) = .ok (pre ++ t) →
     g' (dir_glob_fmt dir) = .ok (pre ++ t') →
     (pre.filterMap (glob_entry_step isF)).head? = some x →
     (expand_directory (DiscFS.mk isF g) dir).head? = some x ∧
     (expand_directory (DiscFS.mk isF g') dir).head? = some x) := by
  constructor
  · intro h
    rw [expand_paths_singleton] at h
    rw [expand_paths_cons]
    exact head_append_of_head _ _ _ h
  · intro hg hg' hx
    constructor
    · rw [expand_directory_glob_ok (DiscFS.mk isF g) dir _ hg, List.filterMap_append]
      exact head_append_of_head _ _ _ hx
    · rw [expand_directory_glob_ok (DiscFS.mk isF g') dir _ hg', List.filterMap_append]
      exact head_append_of_head _ _ _ hx

/-- Witness for C8: the first item over `["lone.txt", "d"]` is already
fixed by the first argument; and the one-entry enumeration of `d` and
the same enumeration extended by ten thousand further files give the
same first item. -/
theorem expand_paths_lazy_head_witness :
    (expand_paths demoFS ["lone.txt", "d"]).head? = some (Except.ok "lone.txt") ∧
    (expand_directory (DiscFS.mk demoFS.isFile smallDirGlob) "d").head? =
      some (Except.ok "d/x.replay") ∧
    (expand_directory (DiscFS.mk demoFS.isFile hugeDirGlob) "d").head? =
      some (Except.ok "d/x.replay") := by
  refine ⟨?_, ?_⟩
  · exact (expand_paths_lazy_head demoFS.isFile smallDirGlob hugeDirGlob demoFS "lone.txt"
      "d" ["d"] [] [] [] (Except.ok "lone.txt")).1 rfl
  · exact (expand_paths_lazy_head demoFS.isFile smallDirGlob hugeDirGlob demoFS "lone.txt"
      "d" ["d"] [Except.ok "d/x.replay"] []
      (List.replicate 10000 (Except.ok "d/more.replay")) (Except.ok "d/x.replay")).2
      rfl rfl rfl

/-- Claim C2 counterexample: on the empty filesystem model `ghostFS` —
`gone` is not a regular file and the glob enumeration of its pattern
yields no entries, exactly the glob crate's behaviour when the literal
prefix of the pattern does not exist on disk — `expand_paths ["gone"]`
is empty, so no error item attributable to the nonexistent argument is
ever yielded, contradicting the claim. -/
theorem expand_paths_missing_dir_counterexample :
    ghostFS.isFile "gone" = false ∧ expand_paths ghostFS ["gone"] = [] := by
  constructor <;> rfl

/-- Claim C2 as amended: a non-file argument is expanded in place as a
directory root while every other argument is still processed; the
expansion of that root yields an error item when the glob pattern
fails to construct, or when the enumeration itself reports a per-entry
error — but when the enumeration is empty (a nonexistent root) nothing
is yielded. -/
theorem expand_paths_missing_dir_amended (fs : DiscFS) (a e err : String)
    (args1 args2 : List String) (pre post : List (Except String String))
    (hnf : fs.isFile a = false) :
    (expand_paths fs (args1 ++ a :: args2) =
      expand_paths fs args1 ++ expand_directory fs a ++ expand_paths fs args2) ∧
    (fs.glob (dir_glob_fmt a) = .error e →
      ∃ m, expand_directory fs a = [Except.error m]) ∧
    (fs.glob (dir_glob_fmt a) = .ok (pre ++ .error err :: post) →
      Except.error err ∈ expand_directory fs a) := by
  refine ⟨?_, ?_, ?_⟩
  · rw [expand_paths_append, expand_paths_cons]
    simp [expandOne, hnf, List.append_assoc]
  · intro h
    exact ⟨_, expand_directory_glob_error fs a e h⟩
  · intro h
    rw [expand_directory_glob_ok fs a _ h, List.filterMap_append, List.filterMap_cons]
    simp [glob_entry_step]

/-- Witness for the amended C2: a later argument is still processed
after a non-file argument, the pattern-failure filesystem yields an
error item for `gone`, and the per-entry error `denied` of `demoFS` is
yielded for the root `d`. -/
theorem expand_paths_missing_dir_amended_witness :
    (expand_paths badPatternFS (["gone"] ++ "also-gone" :: []) =
      expand_paths badPatternFS ["gone"] ++ expand_directory badPatternFS "also-gone" ++
        expand_paths badPatternFS []) ∧
    (∃ m, expand_directory badPatternFS "gone" = [Except.error m]) ∧
    Except.error "denied" ∈ expand_directory demoFS "d" := by
  refine ⟨?_, ?_, ?_⟩
  · exact (expand_paths_missing_dir_amended badPatternFS "also-gone" "e" "err" ["gone"] []
      [] [] rfl).1
  · exact (expand_paths_missing_dir_amended badPatternFS "gone" "bad pattern" "err" [] []
      [] [] rfl).2.1 rfl
  · exact (expand_paths_missing_dir_amended demoFS "d" "e" "denied" [] []
      [Except.ok "d/x.replay"] [Except.ok "d/sub", Except.ok "d/y.replay"] (by decide)).2.2 rfl
